import Mathlib

/-!
Verification of the extract-load pipeline engine found in
`src/src/meltano/core/block/extract_load.py` and
`src/src/meltano/core/block/singer.py`.

The Python code is shallowly embedded: pure logic becomes Lean functions,
stateful objects become explicit state records, raised exceptions become
`Except` errors, and the awaits performed by the (single-threaded,
cooperatively scheduled) execution manager become an explicit event list in
the order the manager performs them.  The `IOBlock` base class
(`ioblock.py`) and the `future_utils` helpers are imported by the sources
but are not themselves among the provided files; where their behavior is
needed it is modelled from the specification and marked as such in the
doc comment of the corresponding definition.
-/

/-- The plugin types of `meltano.core.plugin.PluginType` that can appear in
an EL block set (only the first two matter to the block flags). -/
inductive PluginType
  | extractors
  | loaders
  | transformers
  | mappers
  | utilities
  deriving DecidableEq, Repr

instance : Fintype PluginType :=
  ⟨⟨{PluginType.extractors, PluginType.loaders, PluginType.transformers,
     PluginType.mappers, PluginType.utilities}, by decide⟩,
   by intro x; cases x <;> decide⟩

/-- The producer/consumer capability flags carried by an `IOBlock`
(`extract_load.py` reads `block.producer` / `block.consumer`). -/
structure IOBlockFlags where
  producer : Bool
  consumer : Bool
  deriving DecidableEq, Repr

/-- Lines 33-34 of `singer.py`: `SingerBlock.__init__` derives the flags
from the wrapped plugin's type:
`self.producer = self.invoker.plugin.type == PluginType.EXTRACTORS` and
`self.consumer = self.invoker.plugin.type == PluginType.LOADERS`. -/
def SingerBlock.initFlags (t : PluginType) : IOBlockFlags :=
  { producer := t == PluginType.extractors,
    consumer := t == PluginType.loaders }

/-- Python `blocks[1:-1]` (`ExtractLoadBlocks.intermediate`,
`extract_load.py` lines 319-322). -/
def ExtractLoadBlocks.intermediate (blocks : List IOBlockFlags) : List IOBlockFlags :=
  (blocks.drop 1).dropLast

/-- The `for block in self.intermediate` loop of
`ExtractLoadBlocks.validate_set` (`extract_load.py` lines 253-257): raise on
the first intermediate block that is not both consumer and producer. -/
def ExtractLoadBlocks.validate_intermediate : List IOBlockFlags → Except String Unit
  | [] => Except.ok ()
  | b :: rest =>
      if !b.consumer || !b.producer then
        Except.error "intermediate blocks must be producers AND consumers"
      else ExtractLoadBlocks.validate_intermediate rest

/-- `ExtractLoadBlocks.validate_set` (`extract_load.py` lines 239-257).
`self.head` is `blocks[0]` and `self.tail` is `blocks[-1]`; for a
single-block set they are the same block. -/
def ExtractLoadBlocks.validate_set (blocks : List IOBlockFlags) : Except String Unit :=
  match blocks.head?, blocks.getLast? with
  | some h, some t =>
      if h.consumer then
        Except.error "first block in set should not be consumer"
      else if t.producer then
        Except.error "last block in set should not be a producer"
      else ExtractLoadBlocks.validate_intermediate (ExtractLoadBlocks.intermediate blocks)
  | _, _ => Except.error "No blocks in set."

/-!
The runtime state of one `SingerBlock` (`singer.py`).  A task created by
`asyncio.ensure_future` is identified by a numeric id; `nextTask` is the
supply of fresh ids, so a call that allocates a new reader task is visible
as a change of `nextTask`.
-/

/-- Runtime fields of a `SingerBlock`: `_handle` (the spawned process, or
`None` before `start`), the memoized `_stdout_future` / `_stderr_future`
proxy tasks, and a fresh-task counter standing for `asyncio.ensure_future`
allocation. -/
structure SingerBlockState where
  handle : Option Nat
  stdout_future : Option Nat
  stderr_future : Option Nat
  nextTask : Nat
  deriving DecidableEq, Repr

/-- `SingerBlock.proxy_stdout` (`singer.py` lines 64-78): raise if the
process is not running, lazily create the proxy task on first call, and
return the memoized `_stdout_future` afterwards. -/
def SingerBlock.proxy_stdout (s : SingerBlockState) :
    Except String (Nat × SingerBlockState) :=
  match s.handle with
  | none => Except.error "No IO to proxy, process not running"
  | some _ =>
    match s.stdout_future with
    | some t => Except.ok (t, s)
    | none =>
        Except.ok (s.nextTask,
          { s with stdout_future := some s.nextTask, nextTask := s.nextTask + 1 })

/-- `SingerBlock.proxy_stderr` (`singer.py` lines 80-93): same shape as
`proxy_stdout` over `_stderr_future` (the not-running case raises a bare
`Exception` there, with the same message). -/
def SingerBlock.proxy_stderr (s : SingerBlockState) :
    Except String (Nat × SingerBlockState) :=
  match s.handle with
  | none => Except.error "No IO to proxy, process not running"
  | some _ =>
    match s.stderr_future with
    | some t => Except.ok (t, s)
    | none =>
        Except.ok (s.nextTask,
          { s with stderr_future := some s.nextTask, nextTask := s.nextTask + 1 })

/-!
Embedding of `SingerBlock.stop` (`singer.py` lines 56-62):

    async def stop(self):
        self._handle.kill()
        await self.process_future
        self.proxy_stdout.cancel()
        self.proxy_stderr.cancel()
        self.invoker.cleanup()

`self.proxy_stdout` is an attribute lookup: `__init__` stores no instance
attribute of that name (it stores `_stdout_future`), so the lookup finds the
class's `proxy_stdout` method and yields a bound-method object.  `.cancel`
is then looked up on that bound method.  Only task objects have a `cancel`
attribute; on a bound method the lookup raises `AttributeError`.
-/

/-- The Python values `SingerBlock.stop` manipulates: the memoized proxy
tasks, the bound-method objects produced by attribute lookup of the
`proxy_stdout` / `proxy_stderr` methods, and `None`. -/
inductive PyVal
  | task (id : Nat)
  | boundMethod
  | pyNone
  deriving DecidableEq, Repr

/-- Attribute lookup `self.proxy_stdout` on a `SingerBlock` instance: no
instance attribute shadows the class method, so the result is the bound
method, whatever the block's state. -/
def SingerBlock.attr_proxy_stdout (_ : SingerBlockState) : PyVal :=
  PyVal.boundMethod

/-- Attribute lookup `self.proxy_stderr`, as for `attr_proxy_stdout`. -/
def SingerBlock.attr_proxy_stderr (_ : SingerBlockState) : PyVal :=
  PyVal.boundMethod

/-- Invoking `.cancel()` on a Python value: succeeds (returning the id of
the cancelled task) only on a task object; any other value has no `cancel`
attribute and the lookup raises `AttributeError`. -/
def PyVal.pyCancel : PyVal → Except String Nat
  | PyVal.task t => Except.ok t
  | _ => Except.error "AttributeError: object has no attribute named cancel"

/-- What one call of `SingerBlock.stop` did: whether the process was
killed and its exit awaited, which proxy-task ids had `cancel` invoked on
them, whether the `invoker.cleanup()` teardown body ran, and the exception
the call raised, if any. -/
structure StopTrace where
  killedProcess : Bool
  awaitedExit : Bool
  cancelledTasks : List Nat
  cleanupRan : Bool
  raised : Option String
  deriving DecidableEq, Repr

/-- `SingerBlock.stop` (`singer.py` lines 56-62), statement by statement,
for a started block.  `self._handle.kill()` and `await self.process_future`
run first; then `self.proxy_stdout.cancel()` is attempted on the value of
the attribute lookup.  The final `self.invoker.cleanup()` calls the async
`cleanup` without `await`, so even when reached it only creates a
never-awaited coroutine and the teardown body does not run. -/
def SingerBlock.stop (s : SingerBlockState) : StopTrace :=
  let base : StopTrace :=
    { killedProcess := true, awaitedExit := true, cancelledTasks := [],
      cleanupRan := false, raised := none }
  match PyVal.pyCancel (SingerBlock.attr_proxy_stdout s) with
  | Except.error msg => { base with raised := some msg }
  | Except.ok t1 =>
    match PyVal.pyCancel (SingerBlock.attr_proxy_stderr s) with
    | Except.error msg => { base with cancelledTasks := [t1], raised := some msg }
    | Except.ok t2 =>
        { base with cancelledTasks := [t1, t2], cleanupRan := false }

/-!
Exit-code reconciliation (`_check_exit_codes`, `extract_load.py` lines
529-548).  `_producer_code` and `_consumer_code` start out as `None`
(`ELBExecutionManager.__init__`), so the truthiness tests `if producer_code`
are Python truthiness over `None`-or-`int`.
-/

/-- Python truthiness of a variable holding `None` or an `int`: `None` is
falsy, an `int` is truthy iff nonzero. -/
def pyIntTruthy : Option Int → Bool
  | none => false
  | some c => c != 0

/-- The two output streams a proxy task can read. -/
inductive StreamKind
  | stdout
  | stderr
  deriving DecidableEq, Repr

/-- Which proxy task failed first: the block index it belongs to, the
stream it reads, and whether the exception it failed with wraps a
`LimitOverrunError` (a single unit exceeded the configured size limit). -/
structure ProxyFail where
  blockIdx : Nat
  stream : StreamKind
  isLimitOverrun : Bool
  deriving DecidableEq, Repr

/-- The `RunnerError`s raised by the engine, each constructor one raise
site.  The first four carry the numeric exit-code payload dict passed as
the second `RunnerError` argument at their raise site; the last two are
raised without such a payload. -/
inductive RunnerError
  | extractorAndLoaderFailed (producerCode consumerCode : Int)
  | extractorFailed (producerCode : Int)
  | loaderFailed (consumerCode : Int)
  | unexpectedSequence (extractorsCode loadersCode : Int)
  | outputLineLengthLimitExceeded (lineLengthLimit streamBufferSize : Nat)
  | proxyFailure (pf : ProxyFail)
  deriving DecidableEq, Repr

/-- Whether a raise site attaches a numeric exit-code payload dict to the
`RunnerError`.  `extract_load.py` passes such a dict at lines 539-541, 545,
548 and 487-490; the output-limit error (per the spec's description of
`future_utils`) and a plain re-raised proxy exception carry none. -/
def RunnerError.carriesExitCodes : RunnerError → Bool
  | RunnerError.extractorAndLoaderFailed _ _ => true
  | RunnerError.extractorFailed _ => true
  | RunnerError.loaderFailed _ => true
  | RunnerError.unexpectedSequence _ _ => true
  | RunnerError.outputLineLengthLimitExceeded _ _ => false
  | RunnerError.proxyFailure _ => false

/-- `_check_exit_codes` (`extract_load.py` lines 529-548): both truthy
raises the combined failure, then producer truthy alone, then consumer
truthy alone; otherwise return normally. -/
def _check_exit_codes (producer_code consumer_code : Option Int) :
    Except RunnerError Unit :=
  if pyIntTruthy producer_code && pyIntTruthy consumer_code then
    Except.error (RunnerError.extractorAndLoaderFailed
      (producer_code.getD 0) (consumer_code.getD 0))
  else if pyIntTruthy producer_code then
    Except.error (RunnerError.extractorFailed (producer_code.getD 0))
  else if pyIntTruthy consumer_code then
    Except.error (RunnerError.loaderFailed (consumer_code.getD 0))
  else Except.ok ()

/-!
The `ELBExecutionManager` driving loop (`extract_load.py` lines 382-526).

The manager is a single coroutine; every await it performs happens in
program order, so the run is embedded as a function producing the ordered
list of block-level operations the manager awaited.  What the concurrent
world did (which proxy task, if any, failed the FIRST_EXCEPTION wait, which
process-exit futures are done when the manager inspects them, and the
exit codes of done processes) is an oracle parameter, one observation per
driving step (steps are indexed by the current-head index, which strictly
increases).
-/

/-- One block-level operation awaited by the execution manager:
a `block.stop()` call, closing a block's stdin and awaiting the close,
awaiting both stream-proxy tasks of a block (`asyncio.wait` of its stdout
and stderr proxies), or awaiting a block's process-exit future. -/
inductive Ev
  | stopBlock (i : Nat)
  | closeStdin (i : Nat)
  | awaitProxies (i : Nat)
  | awaitExit (i : Nat)
  deriving DecidableEq, Repr

/-- What the concurrent world shows the manager during one driving step:
`proxyFailed` is the outcome the `first_failed_future` helper reports for
the FIRST_EXCEPTION wait over the remaining proxy tasks (`none` when no
proxy task raised), `procDone i` tells whether block `i`'s process-exit
future is done when the manager inspects it, and `exitCode i` is the
`result()` of that future when done. -/
structure StepObs where
  proxyFailed : Option ProxyFail
  procDone : Nat → Bool
  exitCode : Nat → Int

/-- The oracle for a whole run: one observation per driving step, indexed
by the current-head index of that step. -/
def World := Nat → StepObs

/-- The manager state mutated across the run: `_producer_code` and
`_consumer_code`, both `None` until recorded
(`ELBExecutionManager.__init__`, lines 397-398). -/
structure MgrState where
  producerCode : Option Int
  consumerCode : Option Int
  deriving DecidableEq, Repr

/-- The settings-derived configuration of `ELBExecutionManager.__init__`
(lines 392-395): the `elt.buffer_size` setting and the line-length limit
computed from it. -/
structure ELBConfig where
  stream_buffer_size : Nat
  line_length_limit : Nat
  deriving DecidableEq, Repr

/-- `ELBExecutionManager.__init__` (lines 392-395): reads
`stream_buffer_size` from the `elt.buffer_size` setting and sets
`self.line_length_limit = self.stream_buffer_size // 2`. -/
def ELBExecutionManager.init (buffer_size : Nat) : ELBConfig :=
  { stream_buffer_size := buffer_size,
    line_length_limit := buffer_size / 2 }

/-- Modelled from the spec: `handle_producer_line_length_limit_error` lives
in `meltano.core.block.future_utils`, which is not among the provided
sources.  Per the spec (sections 4.2 and 4.4 step 4) it reclassifies the
failure as an "output line length limit exceeded" error, attaching the
configured limit and buffer size, exactly when the failure's cause was a
size-limit violation (the exception wraps a `LimitOverrunError`); otherwise
it returns without raising and the original exception is re-raised. -/
def handle_producer_line_length_limit_error (cfg : ELBConfig)
    (causeIsLimitOverrun : Bool) : Option RunnerError :=
  if causeIsLimitOverrun then
    some (RunnerError.outputLineLengthLimitExceeded
      cfg.line_length_limit cfg.stream_buffer_size)
  else none

/-- The failed-proxy handling of `_wait_for_process_completion`
(`extract_load.py` lines 458-467): when the failed task is the absolute
head's stdout proxy, let `handle_producer_line_length_limit_error` raise
the reclassified error; in every other case (including when the helper
declines) re-raise the failed task's own exception unchanged. -/
def raiseOnFailedOutputFuture (cfg : ELBConfig) (pf : ProxyFail) : RunnerError :=
  if pf.blockIdx == 0 && pf.stream == StreamKind.stdout then
    match handle_producer_line_length_limit_error cfg pf.isLimitOverrun with
    | some e => e
    | none => RunnerError.proxyFailure pf
  else RunnerError.proxyFailure pf

/-- The loop body of `ExtractLoadBlocks.upstream_complete`
(`extract_load.py` lines 215-222), iterating over the enumerated block
indices: reaching `idx >= index` returns `True`; a not-yet-done process
future before that returns `False`; falling off the end returns `None`,
which the caller treats as falsy. -/
def ExtractLoadBlocks.upstreamCompleteLoop (procDone : Nat → Bool)
    (index : Nat) : List Nat → Bool
  | [] => false
  | idx :: rest =>
      if index ≤ idx then true
      else if procDone idx then
        ExtractLoadBlocks.upstreamCompleteLoop procDone index rest
      else false

/-- `ExtractLoadBlocks.upstream_complete` over a set of `n` blocks. -/
def ExtractLoadBlocks.upstream_complete (n : Nat) (procDone : Nat → Bool)
    (index : Nat) : Bool :=
  ExtractLoadBlocks.upstreamCompleteLoop procDone index (List.range n)

/-- `ExtractLoadBlocks.upstream_stop` (`extract_load.py` lines 224-227):
`for block in reversed(self.blocks[:index]): await block.stop()`, i.e. the
stop operations on blocks `index-1, ..., 0` in that order. -/
def ExtractLoadBlocks.upstream_stop (index : Nat) : List Ev :=
  (List.range index).reverse.map Ev.stopBlock

/-- `ELBExecutionManager._stop_all_blocks` (`extract_load.py` lines
518-526): for each block from `idx` to the end, `await block.close_stdin()`
then `await block.stop()`.  The `close_stdin` and `stop` operations
themselves belong to the `IOBlock` interface (`ioblock.py`, not among the
provided sources) and are modelled from the spec as the corresponding
block-level events. -/
def ELBExecutionManager.stop_all_blocks (n idx : Nat) : List Ev :=
  (List.range' idx (n - idx)).flatMap (fun i => [Ev.closeStdin i, Ev.stopBlock i])

/-- The recursive driving step `_wait_for_process_completion` together with
`_complete_upstream` and `_handle_head_completed` (`extract_load.py` lines
412-526), with the events the manager awaits made explicit.  The first
argument is the distance from the current head to the tail, the structural
termination measure of the recursion (the Python recursion advances the
current head one block per step); callers pass `n - 1 - headIdx`, so the
zero case is exactly the `current_head == self.elb.tail` early return.

Step by step: a failed proxy task raises via `raiseOnFailedOutputFuture`
(no block is stopped on that path); otherwise, if the tail's process future
is done, `_complete_upstream` records the consumer code and either (all
upstream futures done) records the head's exit code as producer code, or
kills all blocks upstream of the tail in reverse order and pretends the
producer finished successfully with code 0, and in both cases then awaits
the tail's stdout and stderr proxies; otherwise, if the current head's
future is done, `_handle_head_completed` records the producer code when the
current head is the true head, awaits the current head's proxies, closes
the next block's stdin, and either wraps up on the tail (awaiting its
proxies, then its exit future, recording the consumer code) or recurses
with the next block as current head; otherwise some other process future
completed and the manager closes stdin of and stops every block from the
current head on, then raises the unexpected-completion-sequence
`RunnerError` whose payload dict maps the extractors and loaders plugin
types both to `1` (lines 485-491). -/
def ELBExecutionManager.wait_go (cfg : ELBConfig) (w : World) (n : Nat) :
    Nat → Nat → MgrState → MgrState × List Ev × Except RunnerError Unit
  | 0, _, s => (s, [], Except.ok ())
  | Nat.succ k, headIdx, s =>
    match (w headIdx).proxyFailed with
    | some pf => (s, [], Except.error (raiseOnFailedOutputFuture cfg pf))
    | none =>
      if (w headIdx).procDone (n - 1) then
        if ExtractLoadBlocks.upstream_complete n (w headIdx).procDone (n - 1) then
          ({ producerCode := some ((w headIdx).exitCode 0),
             consumerCode := some ((w headIdx).exitCode (n - 1)) },
           [Ev.awaitProxies (n - 1)], Except.ok ())
        else
          ({ producerCode := some 0,
             consumerCode := some ((w headIdx).exitCode (n - 1)) },
           ExtractLoadBlocks.upstream_stop (n - 1) ++ [Ev.awaitProxies (n - 1)],
           Except.ok ())
      else if (w headIdx).procDone headIdx then
        if headIdx + 1 == n - 1 then
          ({ producerCode :=
               if headIdx == 0 then some ((w headIdx).exitCode 0) else s.producerCode,
             consumerCode := some ((w headIdx).exitCode (n - 1)) },
           [Ev.awaitProxies headIdx, Ev.closeStdin (headIdx + 1),
            Ev.awaitProxies (n - 1), Ev.awaitExit (n - 1)],
           Except.ok ())
        else
          match ELBExecutionManager.wait_go cfg w n k (headIdx + 1)
              { s with producerCode :=
                  if headIdx == 0 then some ((w headIdx).exitCode 0)
                  else s.producerCode } with
          | (s2, es, r) =>
              (s2, Ev.awaitProxies headIdx :: Ev.closeStdin (headIdx + 1) :: es, r)
      else
        (s, ELBExecutionManager.stop_all_blocks n headIdx,
         Except.error (RunnerError.unexpectedSequence 1 1))

/-- `ELBExecutionManager._wait_for_process_completion` entered with the
block at `headIdx` as current head. -/
def ELBExecutionManager.wait_for_process_completion (cfg : ELBConfig)
    (w : World) (n headIdx : Nat) (s : MgrState) :
    MgrState × List Ev × Except RunnerError Unit :=
  ELBExecutionManager.wait_go cfg w n (n - 1 - headIdx) headIdx s

/-- `ELBExecutionManager.run` (`extract_load.py` lines 400-410): drive the
pipeline from the true head, then reconcile the recorded exit codes with
`_check_exit_codes`. -/
def ELBExecutionManager.run (cfg : ELBConfig) (w : World) (n : Nat) :
    MgrState × List Ev × Except RunnerError Unit :=
  match ELBExecutionManager.wait_for_process_completion cfg w n 0
      { producerCode := none, consumerCode := none } with
  | (s, es, Except.ok ()) => (s, es, _check_exit_codes s.producerCode s.consumerCode)
  | (s, es, Except.error e) => (s, es, Except.error e)

/-- `ExtractLoadBlocks.terminate` (`extract_load.py` lines 271-286): a
graceful termination request raises `NotImplementedError` before touching
any block; a non-graceful request proceeds to the loop calling
`block.stop(kill=True)` on every block of the set, in order. -/
def ExtractLoadBlocks.terminate (n : Nat) (graceful : Bool) :
    Except String (List Ev) :=
  if graceful then Except.error "NotImplementedError"
  else Except.ok ((List.range n).map Ev.stopBlock)

/-!
Sample oracle worlds used to evaluate the engine on concrete runs, and the
ordering predicate for the stdin-close-after-drain guarantee.
-/

/-- A world in which, at every driving step, no proxy task fails, only the
process-exit future of block 1 is done, and every done future yields exit
code 1.  With two blocks this is the tail finishing before the head. -/
def preemptWorld : World := fun _ =>
  { proxyFailed := none, procDone := fun i => i == 1, exitCode := fun _ => 1 }

/-- A world in which, at every driving step, no proxy task fails, only the
process-exit future of block 1 is done, and exit codes are 0.  With three
blocks this is the intermediate block finishing out of turn. -/
def midExitWorld : World := fun _ =>
  { proxyFailed := none, procDone := fun i => i == 1, exitCode := fun _ => 0 }

/-- A world in which, at every driving step, no proxy task fails, only the
process-exit future of block 0 is done, and exit codes are 0.  With two
blocks this is the orderly head-then-tail success run. -/
def orderlyWorld : World := fun _ =>
  { proxyFailed := none, procDone := fun i => i == 0, exitCode := fun _ => 0 }

/-- Membership test on the accumulator of drained stages. -/
def listHasNat : List Nat → Nat → Bool
  | [], _ => false
  | x :: xs, y => (x == y) || listHasNat xs y

/-- Scan of an event list checking the ordering guarantee: every close of
stage `j`'s stdin with `j ≥ 1` must be preceded by an await of stage
`j - 1`'s stdout and stderr proxies (one `Ev.awaitProxies` event covers
both, as the code awaits them in a single `asyncio.wait`).  `drained`
accumulates the stages whose proxies have been awaited so far. -/
def stdinClosedAfterDrainAux (drained : List Nat) : List Ev → Bool
  | [] => true
  | Ev.stopBlock _ :: rest => stdinClosedAfterDrainAux drained rest
  | Ev.awaitExit _ :: rest => stdinClosedAfterDrainAux drained rest
  | Ev.awaitProxies i :: rest => stdinClosedAfterDrainAux (i :: drained) rest
  | Ev.closeStdin j :: rest =>
      ((j == 0) || listHasNat drained (j - 1)) &&
        stdinClosedAfterDrainAux drained rest

/-- The ordering guarantee over a whole run's event list. -/
def stdinClosedAfterDrain (es : List Ev) : Bool :=
  stdinClosedAfterDrainAux [] es

lemma upstreamCompleteLoop_range'_false (procDone : Nat → Bool) (index : Nat) :
    ∀ (len start i : Nat), start ≤ i → i < index → i < start + len →
      procDone i = false →
      ExtractLoadBlocks.upstreamCompleteLoop procDone index (List.range' start len)
        = false := by
  intro len
  induction len with
  | zero => intro start i h1 h2 h3 h4; omega
  | succ len ih =>
    intro start i h1 h2 h3 h4
    rw [List.range'_succ]
    unfold ExtractLoadBlocks.upstreamCompleteLoop
    rw [if_neg (by omega)]
    by_cases hd : procDone start = true
    · rw [if_pos hd]
      have hi : start + 1 ≤ i := by
        rcases Nat.eq_or_lt_of_le h1 with h | h
        · exact absurd (h ▸ hd) (by simp [h4])
        · omega
      exact ih (start + 1) i hi h2 (by omega) h4
    · rw [if_neg hd]

lemma upstream_complete_false_of_undone (n : Nat) (procDone : Nat → Bool)
    (i : Nat) (hi : i < n - 1) (hd : procDone i = false) :
    ExtractLoadBlocks.upstream_complete n procDone (n - 1) = false := by
  unfold ExtractLoadBlocks.upstream_complete
  rw [List.range_eq_range']
  exact upstreamCompleteLoop_range'_false procDone (n - 1) n 0 i (Nat.zero_le i)
    hi (by omega) hd

lemma stdinClosedAfterDrainAux_stops (xs : List Nat) :
    ∀ (drained : List Nat) (rest : List Ev),
      stdinClosedAfterDrainAux drained (xs.map Ev.stopBlock ++ rest) =
        stdinClosedAfterDrainAux drained rest := by
  induction xs with
  | nil => intro drained rest; rfl
  | cons x xs ih =>
    intro drained rest
    simpa [stdinClosedAfterDrainAux] using ih drained rest

/-- Claim C1, as amended: `validate_set` has no single-stage exemption.  A
one-block set whose only block is producer-only is rejected with the
last-block validation error, and every block set of length at least 2 whose
last block has `producer = true` is rejected with a validation error. -/
theorem validate_set_rejects_trailing_producer :
    (∀ b : IOBlockFlags, b.producer = true → b.consumer = false →
        ExtractLoadBlocks.validate_set [b] =
          Except.error "last block in set should not be a producer") ∧
    (∀ (blocks : List IOBlockFlags) (t : IOBlockFlags), 2 ≤ blocks.length →
        blocks.getLast? = some t → t.producer = true →
        ∃ msg, ExtractLoadBlocks.validate_set blocks = Except.error msg) := by
  constructor
  · intro b hp hc
    simp [ExtractLoadBlocks.validate_set, hc, hp]
  · intro blocks t hlen hlast hp
    cases blocks with
    | nil => simp at hlen
    | cons b bs =>
      unfold ExtractLoadBlocks.validate_set
      rw [List.head?_cons, hlast]
      by_cases hc : b.consumer = true
      · exact ⟨"first block in set should not be consumer", by simp [hc]⟩
      · exact ⟨"last block in set should not be a producer", by simp [hc, hp]⟩

/-- Claim C1 counterexample: the degenerate single-stage producer-only
pipeline that the claim says `validate_set` accepts is in fact rejected. -/
theorem validate_set_single_stage_producer_cex :
    ExtractLoadBlocks.validate_set [{ producer := true, consumer := false }] =
      Except.error "last block in set should not be a producer" := by
  rfl

/-- Witness for `validate_set_rejects_trailing_producer` at concrete block
sets of length 1 and 2. -/
theorem validate_set_rejects_trailing_producer_witness :
    (ExtractLoadBlocks.validate_set [{ producer := true, consumer := false }] =
      Except.error "last block in set should not be a producer") ∧
    ∃ msg, ExtractLoadBlocks.validate_set
        [{ producer := true, consumer := false },
         { producer := true, consumer := true }] = Except.error msg :=
  ⟨validate_set_rejects_trailing_producer.1 _ rfl rfl,
   validate_set_rejects_trailing_producer.2 _
     { producer := true, consumer := true } (by decide) (by decide) rfl⟩

/-- Claim C2: after an orderly run, `_check_exit_codes` on the two recorded
exit codes raises the combined extractor-and-loader failure carrying both
codes iff both are nonzero, the extractor failure carrying the producer
code iff only the producer code is nonzero, the loader failure carrying the
consumer code iff only the consumer code is nonzero, and returns normally
iff both are zero. -/
theorem check_exit_codes_reconciliation (p c : Int) :
    (_check_exit_codes (some p) (some c) =
        Except.error (RunnerError.extractorAndLoaderFailed p c) ↔
      (p ≠ 0 ∧ c ≠ 0)) ∧
    (_check_exit_codes (some p) (some c) =
        Except.error (RunnerError.extractorFailed p) ↔ (p ≠ 0 ∧ c = 0)) ∧
    (_check_exit_codes (some p) (some c) =
        Except.error (RunnerError.loaderFailed c) ↔ (p = 0 ∧ c ≠ 0)) ∧
    (_check_exit_codes (some p) (some c) = Except.ok () ↔ (p = 0 ∧ c = 0)) := by
  by_cases hp : p = 0 <;> by_cases hc : c = 0 <;>
    simp [_check_exit_codes, pyIntTruthy, hp, hc]

/-- Claim C10: a SingerBlock is a producer iff its plugin is an extractor
and a consumer iff its plugin is a loader, hence never both; consequently
`validate_set` rejects every block set of three or more blocks whose
intermediate blocks are all SingerBlocks. -/
theorem singer_block_flags_exclusive :
    (∀ t : PluginType,
        ((SingerBlock.initFlags t).producer = true ↔ t = PluginType.extractors) ∧
        ((SingerBlock.initFlags t).consumer = true ↔ t = PluginType.loaders) ∧
        ¬((SingerBlock.initFlags t).producer = true ∧
          (SingerBlock.initFlags t).consumer = true)) ∧
    (∀ blocks : List IOBlockFlags, 3 ≤ blocks.length →
        (∀ b ∈ ExtractLoadBlocks.intermediate blocks,
          ∃ t, b = SingerBlock.initFlags t) →
        ∃ msg, ExtractLoadBlocks.validate_set blocks = Except.error msg) := by
  constructor
  · intro t; cases t <;> simp [SingerBlock.initFlags]
  · intro blocks hlen hmid
    cases blocks with
    | nil => simp at hlen
    | cons b bs =>
      obtain ⟨t', ht'⟩ := Option.isSome_iff_exists.mp
        (List.getLast?_isSome.mpr (List.cons_ne_nil b bs))
      unfold ExtractLoadBlocks.validate_set
      rw [List.head?_cons, ht']
      by_cases hc : b.consumer = true
      · exact ⟨"first block in set should not be consumer", by simp [hc]⟩
      · by_cases hp : t'.producer = true
        · exact ⟨"last block in set should not be a producer", by simp [hc, hp]⟩
        · have hmidlist : ExtractLoadBlocks.intermediate (b :: bs) = bs.dropLast := by
            simp [ExtractLoadBlocks.intermediate]
          have hlen2 : 1 ≤ bs.dropLast.length := by
            have h1 := List.length_dropLast bs
            simp only [List.length_cons] at hlen
            omega
          cases hml : bs.dropLast with
          | nil => rw [hml] at hlen2; simp at hlen2
          | cons x xs =>
            obtain ⟨t, hx⟩ := hmid x
              (by rw [hmidlist, hml]; exact List.mem_cons_self x xs)
            have hnb : (!x.consumer || !x.producer) = true := by
              rw [hx]; cases t <;> rfl
            refine ⟨"intermediate blocks must be producers AND consumers", ?_⟩
            simp [hc, hp, hmidlist, hml,
              ExtractLoadBlocks.validate_intermediate, hnb]

/-- Witness for `singer_block_flags_exclusive` on a concrete three-block
set of SingerBlocks (extractor, mapper, loader). -/
theorem singer_block_flags_exclusive_witness :
    ∃ msg, ExtractLoadBlocks.validate_set
        [SingerBlock.initFlags PluginType.extractors,
         SingerBlock.initFlags PluginType.mappers,
         SingerBlock.initFlags PluginType.loaders] = Except.error msg :=
  singer_block_flags_exclusive.2 _ (by decide) (by decide)

/-- Claim C5: on a started block, `proxy_stdout` and `proxy_stderr` each
succeed and are memoizing — any subsequent call returns exactly the task of
the first call and leaves the block state (in particular its fresh-task
counter) unchanged, so no second stream reader is ever created. -/
theorem proxy_tasks_memoized (s : SingerBlockState) (h : s.handle.isSome = true) :
    (∃ t s', SingerBlock.proxy_stdout s = Except.ok (t, s')) ∧
    (∀ t s', SingerBlock.proxy_stdout s = Except.ok (t, s') →
        SingerBlock.proxy_stdout s' = Except.ok (t, s')) ∧
    (∃ t s', SingerBlock.proxy_stderr s = Except.ok (t, s')) ∧
    (∀ t s', SingerBlock.proxy_stderr s = Except.ok (t, s') →
        SingerBlock.proxy_stderr s' = Except.ok (t, s')) := by
  obtain ⟨v, hv⟩ := Option.isSome_iff_exists.mp h
  refine ⟨?_, ?_, ?_, ?_⟩
  · cases hsf : s.stdout_future with
    | some t0 => exact ⟨t0, s, by simp [SingerBlock.proxy_stdout, hv, hsf]⟩
    | none =>
        exact ⟨s.nextTask,
          { s with stdout_future := some s.nextTask, nextTask := s.nextTask + 1 },
          by simp [SingerBlock.proxy_stdout, hv, hsf]⟩
  · intro t s' hts
    rw [SingerBlock.proxy_stdout, hv] at hts
    cases hsf : s.stdout_future with
    | some t0 =>
      rw [hsf] at hts
      simp only [Except.ok.injEq, Prod.mk.injEq] at hts
      obtain ⟨ht, hs⟩ := hts
      subst ht; subst hs
      simp [SingerBlock.proxy_stdout, hv, hsf]
    | none =>
      rw [hsf] at hts
      simp only [Except.ok.injEq, Prod.mk.injEq] at hts
      obtain ⟨ht, hs⟩ := hts
      subst ht; subst hs
      simp [SingerBlock.proxy_stdout, hv]
  · cases hsf : s.stderr_future with
    | some t0 => exact ⟨t0, s, by simp [SingerBlock.proxy_stderr, hv, hsf]⟩
    | none =>
        exact ⟨s.nextTask,
          { s with stderr_future := some s.nextTask, nextTask := s.nextTask + 1 },
          by simp [SingerBlock.proxy_stderr, hv, hsf]⟩
  · intro t s' hts
    rw [SingerBlock.proxy_stderr, hv] at hts
    cases hsf : s.stderr_future with
    | some t0 =>
      rw [hsf] at hts
      simp only [Except.ok.injEq, Prod.mk.injEq] at hts
      obtain ⟨ht, hs⟩ := hts
      subst ht; subst hs
      simp [SingerBlock.proxy_stderr, hv, hsf]
    | none =>
      rw [hsf] at hts
      simp only [Except.ok.injEq, Prod.mk.injEq] at hts
      obtain ⟨ht, hs⟩ := hts
      subst ht; subst hs
      simp [SingerBlock.proxy_stderr, hv]

/-- Witness for `proxy_tasks_memoized` on a concrete started block: the
first call creates task 0, the second call returns the same task and the
same state. -/
theorem proxy_tasks_memoized_witness :
    SingerBlock.proxy_stdout ⟨some 7, none, none, 0⟩ =
      Except.ok (0, (⟨some 7, some 0, none, 1⟩ : SingerBlockState)) ∧
    SingerBlock.proxy_stdout ⟨some 7, some 0, none, 1⟩ =
      Except.ok (0, (⟨some 7, some 0, none, 1⟩ : SingerBlockState)) ∧
    SingerBlock.proxy_stderr ⟨some 7, none, none, 0⟩ =
      Except.ok (0, (⟨some 7, none, some 0, 1⟩ : SingerBlockState)) ∧
    SingerBlock.proxy_stderr ⟨some 7, none, some 0, 1⟩ =
      Except.ok (0, (⟨some 7, none, some 0, 1⟩ : SingerBlockState)) :=
  ⟨rfl,
   (proxy_tasks_memoized ⟨some 7, none, none, 0⟩ rfl).2.1 0
     ⟨some 7, some 0, none, 1⟩ rfl,
   rfl,
   (proxy_tasks_memoized ⟨some 7, none, none, 0⟩ rfl).2.2.2 0
     ⟨some 7, none, some 0, 1⟩ rfl⟩

/-- Claim C6 (code bug): `SingerBlock.stop` kills the process and awaits
its exit, but then evaluates `self.proxy_stdout.cancel()` — an attribute
lookup on the bound method, not on the memoized `_stdout_future` task — so
it raises `AttributeError` on every call, cancels no proxy task, and never
reaches the (also unawaited) `invoker.cleanup()` teardown. -/
theorem stop_never_cancels_proxies (s : SingerBlockState) :
    (SingerBlock.stop s).killedProcess = true ∧
    (SingerBlock.stop s).awaitedExit = true ∧
    (SingerBlock.stop s).cancelledTasks = [] ∧
    (SingerBlock.stop s).cleanupRan = false ∧
    (SingerBlock.stop s).raised =
      some "AttributeError: object has no attribute named cancel" :=
  ⟨rfl, rfl, rfl, rfl, rfl⟩

/-- Claim C9: a graceful termination request raises `NotImplementedError`
loudly, touching no block; only a non-graceful request proceeds to the loop
stopping every block of the set. -/
theorem terminate_graceful_not_implemented (n : Nat) :
    ExtractLoadBlocks.terminate n true = Except.error "NotImplementedError" ∧
    ExtractLoadBlocks.terminate n false =
      Except.ok ((List.range n).map Ev.stopBlock) :=
  ⟨rfl, rfl⟩

/-- Claim C4, as amended: the configured line-length limit is the buffer
size integer-divided by 2, and a first-failing proxy task's error is
reclassified into the output-size-limit failure (attaching the limit and
the buffer size) exactly when the failing task is the absolute head's
stdout proxy AND the failure's cause was a size-limit overrun; any failing
task that is not the head's stdout proxy is re-raised unchanged. -/
theorem line_length_limit_reclassification (buf : Nat) (pf : ProxyFail) :
    (ELBExecutionManager.init buf).line_length_limit = buf / 2 ∧
    (raiseOnFailedOutputFuture (ELBExecutionManager.init buf) pf =
        RunnerError.outputLineLengthLimitExceeded (buf / 2) buf ↔
      pf.blockIdx = 0 ∧ pf.stream = StreamKind.stdout ∧
        pf.isLimitOverrun = true) ∧
    (¬(pf.blockIdx = 0 ∧ pf.stream = StreamKind.stdout) →
      raiseOnFailedOutputFuture (ELBExecutionManager.init buf) pf =
        RunnerError.proxyFailure pf) := by
  obtain ⟨i, st, lim⟩ := pf
  refine ⟨rfl, ?_, ?_⟩
  · cases st <;> cases lim <;> by_cases hi : i = 0 <;>
      simp [raiseOnFailedOutputFuture, handle_producer_line_length_limit_error,
        ELBExecutionManager.init, hi]
  · intro hn
    cases st with
    | stdout =>
      have hi : i ≠ 0 := fun h => hn ⟨h, rfl⟩
      simp [raiseOnFailedOutputFuture, hi]
    | stderr =>
      simp [raiseOnFailedOutputFuture]

/-- Claim C4 counterexample: a failure of the head's stdout proxy whose
cause is not a size-limit overrun is re-raised unchanged, not reclassified
as the claim's unconditional "exactly when" would require. -/
theorem head_stdout_nonlimit_unchanged_cex :
    raiseOnFailedOutputFuture (ELBExecutionManager.init 100)
        { blockIdx := 0, stream := StreamKind.stdout, isLimitOverrun := false } =
      RunnerError.proxyFailure
        { blockIdx := 0, stream := StreamKind.stdout,
          isLimitOverrun := false } ∧
    raiseOnFailedOutputFuture (ELBExecutionManager.init 100)
        { blockIdx := 0, stream := StreamKind.stdout, isLimitOverrun := false } ≠
      RunnerError.outputLineLengthLimitExceeded 50 100 :=
  ⟨rfl, by decide⟩

/-- Witness for `line_length_limit_reclassification` at a concrete buffer
size and a failing stderr proxy of block 1. -/
theorem line_length_limit_reclassification_witness :
    (ELBExecutionManager.init 100).line_length_limit = 50 ∧
    raiseOnFailedOutputFuture (ELBExecutionManager.init 100)
        { blockIdx := 1, stream := StreamKind.stderr, isLimitOverrun := true } =
      RunnerError.proxyFailure
        { blockIdx := 1, stream := StreamKind.stderr, isLimitOverrun := true } :=
  ⟨(line_length_limit_reclassification 100
      { blockIdx := 1, stream := StreamKind.stderr, isLimitOverrun := true }).1,
   (line_length_limit_reclassification 100
      { blockIdx := 1, stream := StreamKind.stderr,
        isLimitOverrun := true }).2.2 (by decide)⟩

/-- Claim C3: whenever the tail's process-exit future is done at a driving
step while the process-exit future of some block strictly before the tail
is not, the manager stops every block upstream of the tail in reverse
pipeline order, records a synthesized producer code of 0 (not leaving it
unset and not a kill-signal value), and then awaits the tail's stdout and
stderr proxy tasks as the final operations before the driving loop
concludes normally. -/
theorem complete_upstream_preempts_producer
    (cfg : ELBConfig) (w : World) (n headIdx : Nat) (s : MgrState)
    (hh : headIdx < n - 1)
    (hpf : (w headIdx).proxyFailed = none)
    (htail : (w headIdx).procDone (n - 1) = true)
    (hup : ∃ i, i < n - 1 ∧ (w headIdx).procDone i = false) :
    ELBExecutionManager.wait_for_process_completion cfg w n headIdx s =
      ({ producerCode := some 0,
         consumerCode := some ((w headIdx).exitCode (n - 1)) },
       ExtractLoadBlocks.upstream_stop (n - 1) ++ [Ev.awaitProxies (n - 1)],
       Except.ok ()) := by
  obtain ⟨i, hi, hdone⟩ := hup
  have hfalse := upstream_complete_false_of_undone n ((w headIdx).procDone) i hi hdone
  obtain ⟨k, hk⟩ : ∃ k, n - 1 - headIdx = k + 1 := ⟨n - 2 - headIdx, by omega⟩
  rw [ELBExecutionManager.wait_for_process_completion, hk]
  rw [ELBExecutionManager.wait_go]
  simp [hpf, htail, hfalse]

/-- Witness for `complete_upstream_preempts_producer`: a concrete two-block
run in which the tail exits with code 1 while the head is still running. -/
theorem complete_upstream_preempts_producer_witness :
    ELBExecutionManager.wait_for_process_completion (ELBExecutionManager.init 100)
        preemptWorld 2 0 { producerCode := none, consumerCode := none } =
      ({ producerCode := some 0, consumerCode := some 1 },
       [Ev.stopBlock 0, Ev.awaitProxies 1], Except.ok ()) :=
  complete_upstream_preempts_producer (ELBExecutionManager.init 100) preemptWorld
    2 0 { producerCode := none, consumerCode := none }
    (by decide) rfl rfl ⟨0, by decide, rfl⟩

/-- Claim C7, as amended: when a process-exit future completes for a block
that is neither the current head nor the tail, the manager closes stdin of
and then stops every block from the current head onward, in pipeline order,
and raises the unexpected-completion-sequence `RunnerError` — whose payload
dict carries the hardcoded numeric exit codes 1 for the extractors role and
1 for the loaders role (it is not free of numeric exit codes). -/
theorem unexpected_sequence_stops_from_head
    (cfg : ELBConfig) (w : World) (n headIdx : Nat) (s : MgrState)
    (hh : headIdx < n - 1)
    (hpf : (w headIdx).proxyFailed = none)
    (htail : (w headIdx).procDone (n - 1) = false)
    (hhead : (w headIdx).procDone headIdx = false) :
    ELBExecutionManager.wait_for_process_completion cfg w n headIdx s =
      (s, ELBExecutionManager.stop_all_blocks n headIdx,
       Except.error (RunnerError.unexpectedSequence 1 1)) ∧
    RunnerError.carriesExitCodes (RunnerError.unexpectedSequence 1 1) = true := by
  refine ⟨?_, rfl⟩
  obtain ⟨k, hk⟩ : ∃ k, n - 1 - headIdx = k + 1 := ⟨n - 2 - headIdx, by omega⟩
  rw [ELBExecutionManager.wait_for_process_completion, hk]
  rw [ELBExecutionManager.wait_go]
  simp [hpf, htail, hhead]

/-- Claim C7 counterexample: in a concrete three-block run in which only
the intermediate block's exit future is done, the raised
unexpected-sequence error does carry numeric exit codes — the hardcoded
payload mapping extractors to 1 and loaders to 1 — contradicting the
claim's "carries no numeric exit codes". -/
theorem unexpected_error_carries_codes_cex :
    ELBExecutionManager.wait_for_process_completion (ELBExecutionManager.init 100)
        midExitWorld 3 0 { producerCode := none, consumerCode := none } =
      ({ producerCode := none, consumerCode := none },
       [Ev.closeStdin 0, Ev.stopBlock 0, Ev.closeStdin 1, Ev.stopBlock 1,
        Ev.closeStdin 2, Ev.stopBlock 2],
       Except.error (RunnerError.unexpectedSequence 1 1)) ∧
    RunnerError.carriesExitCodes (RunnerError.unexpectedSequence 1 1) = true :=
  ⟨rfl, rfl⟩

/-- Witness for `unexpected_sequence_stops_from_head`: a concrete
four-block run in which only block 1's exit future is done at the first
driving step. -/
theorem unexpected_sequence_stops_from_head_witness :
    ELBExecutionManager.wait_for_process_completion (ELBExecutionManager.init 100)
        midExitWorld 4 0 { producerCode := none, consumerCode := none } =
      ({ producerCode := none, consumerCode := none },
       ELBExecutionManager.stop_all_blocks 4 0,
       Except.error (RunnerError.unexpectedSequence 1 1)) ∧
    RunnerError.carriesExitCodes (RunnerError.unexpectedSequence 1 1) = true :=
  unexpected_sequence_stops_from_head (ELBExecutionManager.init 100) midExitWorld
    4 0 { producerCode := none, consumerCode := none }
    (by decide) rfl rfl rfl

lemma wait_go_stdin_drain (cfg : ELBConfig) (w : World) (n : Nat) :
    ∀ (k headIdx : Nat) (s s' : MgrState) (es : List Ev)
      (r : Except RunnerError Unit),
      ELBExecutionManager.wait_go cfg w n k headIdx s = (s', es, r) →
      (∀ e l : Int, r ≠ Except.error (RunnerError.unexpectedSequence e l)) →
      ∀ drained : List Nat, stdinClosedAfterDrainAux drained es = true := by
  intro k
  induction k with
  | zero =>
    intro headIdx s s' es r h hne drained
    rw [ELBExecutionManager.wait_go] at h
    cases h
    rfl
  | succ k ih =>
    intro headIdx s s' es r h hne drained
    rw [ELBExecutionManager.wait_go] at h
    split at h
    · cases h
      rfl
    · split at h
      · split at h
        · cases h
          rfl
        · cases h
          rw [ExtractLoadBlocks.upstream_stop, stdinClosedAfterDrainAux_stops]
          rfl
      · split at h
        · split at h
          · cases h
            simp [stdinClosedAfterDrainAux, listHasNat]
          · split at h
            rename_i s2 es2 r2 heq
            cases h
            have hrec := ih (headIdx + 1) _ _ _ _ heq hne
            simp [stdinClosedAfterDrainAux, listHasNat, hrec]
        · cases h
          exact absurd rfl (hne 1 1)

/-- Claim C8, as amended: in every driving-loop execution that does not
abort through the unexpected-completion-sequence teardown path, stdin of
stage i+1 is closed only after both the stdout proxy task and the stderr
proxy task of stage i have been awaited to completion (the teardown path,
by contrast, closes stdin of every block from the current head onward
without awaiting the upstream proxies). -/
theorem stdin_closed_after_upstream_drain
    (cfg : ELBConfig) (w : World) (n headIdx : Nat) (s s' : MgrState)
    (es : List Ev) (r : Except RunnerError Unit)
    (h : ELBExecutionManager.wait_for_process_completion cfg w n headIdx s =
      (s', es, r))
    (hne : ∀ e l : Int, r ≠ Except.error (RunnerError.unexpectedSequence e l)) :
    stdinClosedAfterDrain es = true := by
  rw [ELBExecutionManager.wait_for_process_completion] at h
  exact wait_go_stdin_drain cfg w n _ headIdx s s' es r h hne []

/-- Claim C8 counterexample: the concrete three-block run in which the
intermediate block exits first closes stdin of blocks 1 and 2 during
teardown without block 0's or block 1's proxies having been awaited, so the
claimed ordering does not hold of every run. -/
theorem stdin_closed_undrained_cex :
    ELBExecutionManager.wait_for_process_completion (ELBExecutionManager.init 100)
        midExitWorld 3 0 { producerCode := some 0, consumerCode := none } =
      ({ producerCode := some 0, consumerCode := none },
       [Ev.closeStdin 0, Ev.stopBlock 0, Ev.closeStdin 1, Ev.stopBlock 1,
        Ev.closeStdin 2, Ev.stopBlock 2],
       Except.error (RunnerError.unexpectedSequence 1 1)) ∧
    stdinClosedAfterDrain
      [Ev.closeStdin 0, Ev.stopBlock 0, Ev.closeStdin 1, Ev.stopBlock 1,
       Ev.closeStdin 2, Ev.stopBlock 2] = false :=
  ⟨rfl, rfl⟩

/-- Witness for `stdin_closed_after_upstream_drain`: the orderly two-block
run, whose event list closes stdin of block 1 only after block 0's proxies
were awaited. -/
theorem stdin_closed_after_upstream_drain_witness :
    stdinClosedAfterDrain
      [Ev.awaitProxies 0, Ev.closeStdin 1, Ev.awaitProxies 1, Ev.awaitExit 1] =
      true :=
  stdin_closed_after_upstream_drain (ELBExecutionManager.init 100) orderlyWorld
    2 0 { producerCode := none, consumerCode := none }
    { producerCode := some 0, consumerCode := some 0 }
    [Ev.awaitProxies 0, Ev.closeStdin 1, Ev.awaitProxies 1, Ev.awaitExit 1]
    (Except.ok ()) rfl (fun _ _ hcontra => Except.noConfusion hcontra)
